import Mathlib

/- A shallow embedding of the tobs tool (src/tobs/tobs.py): hemisphere and
observing-window selection from ecliptic latitude, the low-precision
antisolar-longitude formula, the sampled nearest-neighbour antisolar-date
estimate, and the printed observability report. Real-valued arithmetic
models the floating-point arithmetic of the source. -/

namespace Tobs

open Real

open Classical

/-- Degrees to radians, as np.radians: x * pi / 180. -/
noncomputable def radians (x : ℝ) : ℝ := x * Real.pi / 180

/-- Float modulo by a positive modulus, as the % operator in the source:
x % y = x - y * floor (x / y), so the result has the divisor's sign. -/
noncomputable def fmod (x y : ℝ) : ℝ := x - y * ⌊x / y⌋

/-- For a positive modulus the remainder lies in [0, modulus). -/
lemma fmod_nonneg_lt (x : ℝ) : 0 ≤ fmod x 360 ∧ fmod x 360 < 360 := by
  unfold fmod
  have hle : (⌊x / 360⌋ : ℝ) ≤ x / 360 := Int.floor_le _
  have hlt : x / 360 < ⌊x / 360⌋ + 1 := Int.lt_floor_add_one _
  have hx : 360 * (x / 360) = x := by ring
  constructor <;> nlinarith

/-- The two TESS ecliptic hemispheres distinguished by the source
(get_hemisphere returns 'south', 'north' or False). -/
inductive Hemi
  | north
  | south
deriving DecidableEq

/-- Observable.get_hemisphere: lat < -5.5 gives south, lat > 5.5 gives
north, and otherwise False (modelled as none). -/
noncomputable def get_hemisphere (lat : ℝ) : Option Hemi :=
  if lat < -5.5 then some Hemi.south
  else if 5.5 < lat then some Hemi.north
  else none

/-- Observable.get_hemisphererange: None when the hemisphere is undefined,
otherwise the fixed pair of ISO window boundary instants. -/
noncomputable def get_hemisphererange (lat : ℝ) : Option (String × String) :=
  match get_hemisphere lat with
  | none => none
  | some Hemi.south => some ("2018-06-18T00:00:00", "2019-06-18T00:00:00")
  | some Hemi.north => some ("2019-06-18T00:00:00", "2020-06-18T00:00:00")

/-- Modelled from the spec: the external time-system library (astropy Time,
out of scope per the spec) converts the window's ISO instants to Julian
dates; these are the standard JD values of the three boundary dates
2018-06-18, 2019-06-18 and 2020-06-18 (all T00:00:00 UTC). Note the north
window spans 366 days because 2020 is a leap year. -/
def windowJD : Hemi → ℝ × ℝ
  | Hemi.south => (2458287.5, 2458652.5)
  | Hemi.north => (2458652.5, 2459018.5)

/-- The k-th sampled instant of the window, as a Julian date: the source
computes t[0] + (t[1] - t[0]) * linspace(0, 1, 365*24+1), whose k-th entry
is t0 + (t1 - t0) * k / 8760. -/
noncomputable def sampleJD (w : Hemi) (k : ℕ) : ℝ :=
  (windowJD w).1 + ((windowJD w).2 - (windowJD w).1) * ((k : ℝ) / (365 * 24))

/-- The full list of sampled instants, in order. -/
noncomputable def sampleList (w : Hemi) : List ℝ :=
  (List.range (365 * 24 + 1)).map (sampleJD w)

/-- Observable.get_antisolarlon on a Julian date (the source receives an
astropy Time and reads date.jd; the formula is from the USNO low-precision
solar position approximation). -/
noncomputable def get_antisolarlon (jd : ℝ) : ℝ :=
  let D := jd - 2451545.0
  let g := 357.529 + 0.98560028 * D
  let q := 280.459 + 0.98564736 * D
  let L := q + 1.915 * Real.sin (radians g) + 0.020 * Real.sin (radians (2 * g))
  fmod (L + 180) 360

/-- The antisolar-longitude computation exactly as the spec words it:
D = Julian date minus 2451545.0; mean anomaly g = 357.529 + 0.98560028 D
degrees; mean longitude q = 280.459 + 0.98564736 D degrees; apparent solar
ecliptic longitude L = q + 1.915 sin g + 0.020 sin 2g with g, 2g in radians
for the trig calls; result (L + 180) mod 360. -/
noncomputable def antisolarlonSpec (jd : ℝ) : ℝ :=
  let D := jd - 2451545.0
  let g := 357.529 + 0.98560028 * D
  let q := 280.459 + 0.98564736 * D
  let L := q + 1.915 * Real.sin (radians g) + 0.020 * Real.sin (radians (2 * g))
  fmod (L + 180) 360

/-- The antisolar longitude at the k-th sampled instant. -/
noncomputable def sampleLon (w : Hemi) (k : ℕ) : ℝ :=
  get_antisolarlon (sampleJD w k)

/-- Modelled from the spec: the nearest-neighbour interpolation map built by
the external scipy interp1d (kind='nearest') selects, among sample indices
0..n, an index whose x value is closest to the query (here: the first
strictly-closest index found scanning upward). -/
noncomputable def nearestAux (x : ℕ → ℝ) (q : ℝ) : ℕ → ℕ
  | 0 => 0
  | k + 1 =>
    let b := nearestAux x q k
    if |x (k + 1) - q| < |x b - q| then k + 1 else b

/-- Observable.get_antisolardate: None when the hemisphere (hence the
window) is undefined; otherwise nearest-neighbour interpolation of the 8761
sampled antisolar longitudes against the target longitude. Modelled from
the spec where scipy is external: a query outside the range of the sampled
longitudes is a bounds error (scipy raises ValueError, uncaught in the
source), modelled as Except.error. -/
noncomputable def get_antisolardate (lon lat : ℝ) : Option (Except Unit ℝ) :=
  match get_hemisphere lat with
  | none => none
  | some w =>
    if (∃ j, j ≤ 8760 ∧ sampleLon w j ≤ lon) ∧ (∃ j, j ≤ 8760 ∧ lon ≤ sampleLon w j) then
      some (Except.ok (sampleJD w (nearestAux (sampleLon w) lon 8760)))
    else some (Except.error ())

/-- One line of the printed report. Colour codes, blank separator lines and
number formatting are presentation handled by external helpers; each
constructor carries the value the source interpolates into the line. -/
inductive OutLine
  | resolvedName
  | notObserved
  | antisolar (jd : ℝ)
  | earliest (jd : ℝ)
  | latest (jd : ℝ)
  | advisory (lat : ℝ)

/-- print_results: the reported earliest instant is (antisolar - 28 days),
replaced by the mission-start Julian date 2458287.5 whenever
(antisolar - 28 days).jd < 2458287.5. -/
noncomputable def earliestJD (d : ℝ) : ℝ :=
  if d - 28 < 2458287.5 then 2458287.5 else d - 28

/-- print_results: the reported latest instant is antisolar + 28 days. -/
noncomputable def latestJD (d : ℝ) : ℝ := d + 28

/-- print_results for a resolved target: the resolved-name line always
prints; then either the not-observed line, or the three date lines followed
by the multi-sector advisory exactly when np.abs(lat) > 30. A bounds error
from the interpolation propagates as an uncaught exception. -/
noncomputable def print_results (lon lat : ℝ) : Except Unit (List OutLine) :=
  match get_antisolardate lon lat with
  | none => Except.ok [OutLine.resolvedName, OutLine.notObserved]
  | some (Except.error e) => Except.error e
  | some (Except.ok d) =>
    Except.ok ([OutLine.resolvedName, OutLine.antisolar d,
      OutLine.earliest (earliestJD d), OutLine.latest (latestJD d)] ++
      if 30 < |lat| then [OutLine.advisory lat] else [])

/-- The tobs entry point, abstracted over the external Simbad resolution:
None (no result) logs an error and exits with code 1 before any output;
otherwise the resolved ecliptic coordinates drive print_results, a
completed run exits 0, and an uncaught exception terminates with code 1. -/
noncomputable def tobs : Option (ℝ × ℝ) → ℕ × Except Unit (List OutLine)
  | none => (1, Except.ok [])
  | some (lon, lat) =>
    match print_results lon lat with
    | Except.ok ls => (0, Except.ok ls)
    | Except.error e => (1, Except.error e)

/-! ### Basic characterisations -/

lemma get_hemisphere_south {lat : ℝ} (h : lat < -5.5) :
    get_hemisphere lat = some Hemi.south := by
  unfold get_hemisphere
  rw [if_pos h]

lemma get_hemisphere_north {lat : ℝ} (h : 5.5 < lat) :
    get_hemisphere lat = some Hemi.north := by
  unfold get_hemisphere
  rw [if_neg (by linarith), if_pos h]

lemma get_hemisphere_none {lat : ℝ} (h1 : -5.5 ≤ lat) (h2 : lat ≤ 5.5) :
    get_hemisphere lat = none := by
  unfold get_hemisphere
  rw [if_neg (by linarith), if_neg (by linarith)]

lemma get_antisolardate_of_none {lon lat : ℝ} (h : get_hemisphere lat = none) :
    get_antisolardate lon lat = none := by
  unfold get_antisolardate
  rw [h]

lemma get_antisolardate_of_some {lon lat : ℝ} {w : Hemi} (h : get_hemisphere lat = some w) :
    get_antisolardate lon lat =
      if (∃ j, j ≤ 8760 ∧ sampleLon w j ≤ lon) ∧ (∃ j, j ≤ 8760 ∧ lon ≤ sampleLon w j) then
        some (Except.ok (sampleJD w (nearestAux (sampleLon w) lon 8760)))
      else some (Except.error ()) := by
  unfold get_antisolardate
  rw [h]

lemma antisolardate_none_iff (lon lat : ℝ) :
    get_antisolardate lon lat = none ↔ get_hemisphere lat = none := by
  cases hg : get_hemisphere lat with
  | none => simp [get_antisolardate_of_none hg]
  | some w =>
    rw [get_antisolardate_of_some hg]
    split_ifs <;> simp

lemma hemisphere_none_abs {lat : ℝ} (h : get_hemisphere lat = none) : |lat| ≤ 5.5 := by
  unfold get_hemisphere at h
  split_ifs at h with h1 h2
  rw [abs_le]
  exact ⟨by linarith, by linarith⟩

/-- The full report printed when the target sits on the ecliptic band
(shared by several results below). -/
lemma print_results_band (lon lat : ℝ) (h1 : -5.5 ≤ lat) (h2 : lat ≤ 5.5) :
    print_results lon lat = Except.ok [OutLine.resolvedName, OutLine.notObserved] := by
  unfold print_results
  rw [get_antisolardate_of_none (get_hemisphere_none h1 h2)]

/-! ### Claims C1, C2, C4, C6, C10 -/

/-- C1: the derived hemisphere is south exactly when lat < -5.5, north
exactly when lat > 5.5 and none otherwise; and the observing window is the
fixed south range 2018-06-18..2019-06-18 or north range
2019-06-18..2020-06-18, a function of the hemisphere alone. -/
theorem C1_hemisphere_and_window (lat : ℝ) :
    (get_hemisphere lat = some Hemi.south ↔ lat < -5.5) ∧
    (get_hemisphere lat = some Hemi.north ↔ 5.5 < lat) ∧
    (get_hemisphere lat = none ↔ -5.5 ≤ lat ∧ lat ≤ 5.5) ∧
    get_hemisphererange lat = (get_hemisphere lat).map (fun w =>
      match w with
      | Hemi.south => ("2018-06-18T00:00:00", "2019-06-18T00:00:00")
      | Hemi.north => ("2019-06-18T00:00:00", "2020-06-18T00:00:00")) := by
  have hmap : get_hemisphererange lat = (get_hemisphere lat).map (fun w =>
      match w with
      | Hemi.south => ("2018-06-18T00:00:00", "2019-06-18T00:00:00")
      | Hemi.north => ("2019-06-18T00:00:00", "2020-06-18T00:00:00")) := by
    unfold get_hemisphererange
    cases get_hemisphere lat with
    | none => rfl
    | some w => cases w <;> rfl
  by_cases h1 : lat < -5.5
  · have hs := get_hemisphere_south h1
    refine ⟨⟨fun _ => h1, fun _ => hs⟩, ?_, ?_, hmap⟩
    · constructor
      · intro h
        rw [hs] at h
        simp at h
      · intro h
        linarith
    · constructor
      · intro h
        rw [hs] at h
        simp at h
      · intro h
        linarith [h.1]
  · by_cases h2 : 5.5 < lat
    · have hn := get_hemisphere_north h2
      refine ⟨?_, ⟨fun _ => h2, fun _ => hn⟩, ?_, hmap⟩
      · constructor
        · intro h
          rw [hn] at h
          simp at h
        · intro h
          linarith
      · constructor
        · intro h
          rw [hn] at h
          simp at h
        · intro h
          linarith [h.2]
    · have hz := @get_hemisphere_none lat (by linarith) (by linarith)
      refine ⟨?_, ?_, ⟨fun _ => ⟨by linarith, by linarith⟩, fun _ => hz⟩, hmap⟩
      · constructor
        · intro h
          rw [hz] at h
          simp at h
        · intro h
          linarith
      · constructor
        · intro h
          rw [hz] at h
          simp at h
        · intro h
          linarith

/-- C2: get_antisolarlon computes precisely the formula stated in the spec:
D = jd - 2451545.0, g = 357.529 + 0.98560028 D, q = 280.459 + 0.98564736 D,
L = q + 1.915 sin g + 0.020 sin 2g (radians for the trig calls), and the
result is (L + 180) mod 360. -/
theorem C2_antisolarlon_formula : ∀ jd : ℝ, get_antisolarlon jd = antisolarlonSpec jd :=
  fun _ => rfl

/-- C4: strictly inside the (-5.5, 5.5) ecliptic band the hemisphere is
none, there is no observing window, and get_antisolardate returns none. -/
theorem C4_ecliptic_band_none (lon lat : ℝ) (h1 : -5.5 < lat) (h2 : lat < 5.5) :
    get_hemisphere lat = none ∧ get_hemisphererange lat = none ∧
      get_antisolardate lon lat = none := by
  have hh : get_hemisphere lat = none := get_hemisphere_none h1.le h2.le
  exact ⟨hh, by unfold get_hemisphererange; rw [hh], get_antisolardate_of_none hh⟩

theorem C4_witness :
    get_hemisphere (0 : ℝ) = none ∧ get_hemisphererange (0 : ℝ) = none ∧
      get_antisolardate 0 0 = none :=
  C4_ecliptic_band_none 0 0 (by norm_num) (by norm_num)

/-- C6: the reported latest date is the antisolar date plus 28 days, and the
reported earliest date is the antisolar date minus 28 days clamped below by
the mission-start Julian date 2458287.5 (it equals exactly 2458287.5
whenever the unclamped value would precede it). -/
theorem C6_earliest_latest (d : ℝ) :
    earliestJD d = max 2458287.5 (d - 28) ∧ latestJD d = d + 28 := by
  unfold earliestJD latestJD
  refine ⟨?_, rfl⟩
  by_cases h : d - 28 < 2458287.5
  · rw [if_pos h, max_eq_left h.le]
  · rw [if_neg h, max_eq_right (le_of_not_lt h)]

/-- C10: for every Julian date the antisolar longitude lies in [0, 360). -/
theorem C10_antisolarlon_range (jd : ℝ) :
    0 ≤ get_antisolarlon jd ∧ get_antisolarlon jd < 360 := by
  unfold get_antisolarlon
  exact fmod_nonneg_lt _

/-! ### Claim C5: the sampling grid -/

lemma sampleJD_zero (w : Hemi) : sampleJD w 0 = (windowJD w).1 := by
  unfold sampleJD
  norm_num

lemma sampleJD_last (w : Hemi) : sampleJD w 8760 = (windowJD w).2 := by
  unfold sampleJD
  norm_num

lemma sampleJD_step (w : Hemi) (k : ℕ) :
    sampleJD w (k + 1) - sampleJD w k = ((windowJD w).2 - (windowJD w).1) / 8760 := by
  unfold sampleJD
  push_cast
  ring

lemma sampleList_length (w : Hemi) : (sampleList w).length = 365 * 24 + 1 := by
  unfold sampleList
  simp

/-- C5 counterexample: the north window runs 2019-06-18 to 2020-06-18, which
spans 366 days (2020 is a leap year), so its 8761 evenly spaced samples sit
366/8760 day apart: not the hourly 1/24 day spacing the claim asserts for
both windows alike. -/
theorem C5_counterexample :
    sampleJD Hemi.north 1 - sampleJD Hemi.north 0 = 366 / 8760 ∧
      ((366 : ℝ) / 8760 ≠ 1 / 24) := by
  constructor
  · rw [sampleJD_step]
    unfold windowJD
    norm_num
  · norm_num

/-- C5 amended: whenever the observing window is defined, get_antisolardate
samples exactly 365*24+1 evenly spaced instants from the window start to the
window end inclusive; the common spacing is the window length over 8760,
which is one hour (1/24 day) for the 365-day south window but 366/8760 day
for the 366-day north window. -/
theorem C5_sampling (w : Hemi) (k : Fin 8760) :
    (sampleList w).length = 365 * 24 + 1 ∧
    sampleJD w 0 = (windowJD w).1 ∧
    sampleJD w 8760 = (windowJD w).2 ∧
    sampleJD w (k.1 + 1) - sampleJD w k.1 = ((windowJD w).2 - (windowJD w).1) / 8760 ∧
    sampleJD Hemi.south (k.1 + 1) - sampleJD Hemi.south k.1 = 1 / 24 ∧
    sampleJD Hemi.north (k.1 + 1) - sampleJD Hemi.north k.1 = 366 / 8760 := by
  refine ⟨sampleList_length w, sampleJD_zero w, sampleJD_last w, sampleJD_step w k.1, ?_, ?_⟩
  · rw [sampleJD_step]
    unfold windowJD
    norm_num
  · rw [sampleJD_step]
    unfold windowJD
    norm_num

/-! ### Claims C7, C8, C9: the report and exit codes -/

lemma tobs_some (lon lat : ℝ) :
    tobs (some (lon, lat)) =
      match print_results lon lat with
      | Except.ok ls => (0, Except.ok ls)
      | Except.error e => (1, Except.error e) := rfl

/-- C7: in any completed report, the multi-sector advisory line appears
exactly when |lat| > 30, whatever the hemisphere. -/
theorem C7_advisory_iff (lon lat : ℝ) (ls : List OutLine)
    (h : print_results lon lat = Except.ok ls) :
    OutLine.advisory lat ∈ ls ↔ 30 < |lat| := by
  unfold print_results at h
  cases hd : get_antisolardate lon lat with
  | none =>
    rw [hd] at h
    have habs : |lat| ≤ 5.5 := hemisphere_none_abs ((antisolardate_none_iff lon lat).mp hd)
    have hls : ls = [OutLine.resolvedName, OutLine.notObserved] := by
      cases h
      rfl
    subst hls
    constructor
    · intro hmem
      simp at hmem
    · intro h30
      linarith
  | some r =>
    cases r with
    | error e =>
      rw [hd] at h
      cases h
    | ok d =>
      rw [hd] at h
      have hls : ls = [OutLine.resolvedName, OutLine.antisolar d,
          OutLine.earliest (earliestJD d), OutLine.latest (latestJD d)] ++
          (if 30 < |lat| then [OutLine.advisory lat] else []) := by
        cases h
        rfl
      subst hls
      by_cases h30 : 30 < |lat|
      · rw [if_pos h30]
        simp [h30]
      · rw [if_neg h30]
        simp [h30]

theorem C7_witness :
    print_results 0 0 = Except.ok [OutLine.resolvedName, OutLine.notObserved] ∧
      (OutLine.advisory (0 : ℝ) ∈ [OutLine.resolvedName, OutLine.notObserved] ↔
        30 < |(0 : ℝ)|) := by
  have hp : print_results 0 0 = Except.ok [OutLine.resolvedName, OutLine.notObserved] :=
    print_results_band 0 0 (by norm_num) (by norm_num)
  exact ⟨hp, C7_advisory_iff 0 0 _ hp⟩

/-- C8 counterexample: at ecliptic latitude 0 the run exits with code 0, but
its output is not exactly the single not-observed line: the resolved-name
line always prints first. -/
theorem C8_counterexample :
    tobs (some (0, 0)) = (0, Except.ok [OutLine.resolvedName, OutLine.notObserved]) ∧
      [OutLine.resolvedName, OutLine.notObserved] ≠ [OutLine.notObserved] := by
  constructor
  · rw [tobs_some, print_results_band 0 0 (by norm_num) (by norm_num)]
  · intro h
    cases h

/-- C8 amended: every target resolving with ecliptic latitude 0 yields exit
code 0 and a report whose observability portion is exactly the
"Ecliptic target not observed by TESS" line (no date lines), after the
always-printed resolved-name line. -/
theorem C8_lat_zero_report (lon : ℝ) :
    tobs (some (lon, 0)) = (0, Except.ok [OutLine.resolvedName, OutLine.notObserved]) := by
  rw [tobs_some, print_results_band lon 0 (by norm_num) (by norm_num)]

/-- C9: a failed name resolution exits with code 1 producing no coordinate
output, and a run whose report completes exits with code 0. -/
theorem C9_exit_codes :
    tobs none = (1, Except.ok []) ∧
      ∀ lon lat ls, print_results lon lat = Except.ok ls →
        tobs (some (lon, lat)) = (0, Except.ok ls) := by
  refine ⟨rfl, ?_⟩
  intro lon lat ls h
  rw [tobs_some, h]

theorem C9_witness :
    tobs none = (1, Except.ok []) ∧
      tobs (some (0, 0)) = (0, Except.ok [OutLine.resolvedName, OutLine.notObserved]) :=
  ⟨C9_exit_codes.1,
    C9_exit_codes.2 0 0 _ (print_results_band 0 0 (by norm_num) (by norm_num))⟩

/-! ### Modular arithmetic on the longitude circle -/

lemma fmod_eq_sub (x : ℝ) (m : ℤ) (h1 : 360 * m ≤ x) (h2 : x < 360 * m + 360) :
    fmod x 360 = x - 360 * m := by
  unfold fmod
  have hm : ⌊x / 360⌋ = m := by
    rw [Int.floor_eq_iff]
    constructor
    · rw [le_div_iff (by norm_num : (0:ℝ) < 360)]
      linarith
    · rw [div_lt_iff (by norm_num : (0:ℝ) < 360)]
      push_cast
      linarith
  rw [hm]

lemma fmod_add_int (x : ℝ) (m : ℤ) : fmod (x + 360 * m) 360 = fmod x 360 := by
  unfold fmod
  have h : (x + 360 * m) / 360 = x / 360 + m := by
    field_simp
    ring
  rw [h, Int.floor_add_int]
  push_cast
  ring

/-- Distance between two longitudes measured on the 360-degree circle. -/
noncomputable def circleDist (a b : ℝ) : ℝ := |fmod (a - b + 180) 360 - 180|

lemma circleDist_rep (a b : ℝ) :
    ∃ m : ℤ, circleDist a b = |a - b - 360 * m| ∧
      -180 ≤ a - b - 360 * m ∧ a - b - 360 * m < 180 := by
  refine ⟨⌊(a - b + 180) / 360⌋, ?_, ?_, ?_⟩
  · unfold circleDist
    congr 1
    unfold fmod
    ring
  · have h := (fmod_nonneg_lt (a - b + 180)).1
    unfold fmod at h
    linarith
  · have h := (fmod_nonneg_lt (a - b + 180)).2
    unfold fmod at h
    linarith

lemma circleDist_le_abs (a b : ℝ) : circleDist a b ≤ |a - b| := by
  obtain ⟨m, hrep, hr1, hr2⟩ := circleDist_rep a b
  rw [hrep]
  rcases lt_trichotomy m 0 with hneg | hzero | hpos
  · have hm : (m : ℝ) ≤ -1 := by
      have : m ≤ -1 := by omega
      exact_mod_cast this
    have hd : a - b ≤ -180 := by linarith
    rw [abs_of_nonpos (by linarith : a - b ≤ 0)]
    calc |a - b - 360 * m| ≤ 180 := abs_le.mpr ⟨by linarith, by linarith⟩
      _ ≤ -(a - b) := by linarith
  · rw [hzero]
    push_cast
    rw [mul_zero, sub_zero]
  · have hm : (1 : ℝ) ≤ m := by
      have : 1 ≤ m := hpos
      exact_mod_cast this
    have hd : 180 ≤ a - b := by linarith
    rw [abs_of_nonneg (by linarith : 0 ≤ a - b)]
    calc |a - b - 360 * m| ≤ 180 := abs_le.mpr ⟨by linarith, by linarith⟩
      _ ≤ a - b := by linarith

lemma circleDist_eq_abs (a b : ℝ) (h : |a - b| ≤ 180) : circleDist a b = |a - b| := by
  obtain ⟨h1, h2⟩ := abs_le.mp h
  rcases eq_or_lt_of_le h2 with he | hlt
  · unfold circleDist
    rw [show a - b + 180 = (360 : ℝ) by linarith]
    have h360 : fmod 360 360 = 0 := by
      have h := fmod_eq_sub 360 1 (by push_cast; norm_num) (by push_cast; norm_num)
      push_cast at h
      linarith
    rw [h360, he]
    norm_num
  · unfold circleDist
    rw [fmod_eq_sub _ 0 (by push_cast; linarith) (by push_cast; linarith)]
    push_cast
    congr 1
    ring

lemma circleDist_ge (a b δ : ℝ) (hδ : 0 ≤ δ) (h1 : δ ≤ |a - b|) (h2 : |a - b| + δ ≤ 360) :
    δ ≤ circleDist a b := by
  obtain ⟨m, hrep, hr1, hr2⟩ := circleDist_rep a b
  rw [hrep]
  have habs : -360 + δ ≤ a - b ∧ a - b ≤ 360 - δ := by
    rcases abs_cases (a - b) with ⟨he, _⟩ | ⟨he, _⟩ <;> constructor <;> linarith
  have hmlo : (-1 : ℝ) ≤ m := by
    have : (-2 : ℝ) < m := by linarith [habs.1]
    have h2' : (-2 : ℤ) < m := by exact_mod_cast this
    have : (-1 : ℤ) ≤ m := by omega
    exact_mod_cast this
  have hmhi : (m : ℝ) ≤ 1 := by
    have : (m : ℝ) < 2 := by linarith [habs.2]
    have h2' : m < (2 : ℤ) := by exact_mod_cast this
    have : m ≤ (1 : ℤ) := by omega
    exact_mod_cast this
  rcases lt_trichotomy m 0 with hneg | hzero | hpos
  · have hm : (m : ℝ) = -1 := by
      have : m = -1 := by
        have : -1 ≤ m := by exact_mod_cast hmlo
        omega
      exact_mod_cast this
    rw [hm]
    have hd : a - b < -180 := by linarith
    have hdge : -(a - b) ≤ 360 - δ := by
      rcases abs_cases (a - b) with ⟨he, _⟩ | ⟨he, _⟩ <;> linarith
    calc δ ≤ a - b - 360 * (-1) := by linarith
      _ ≤ |a - b - 360 * (-1)| := le_abs_self _
  · rw [hzero]
    push_cast
    rw [mul_zero, sub_zero]
    exact h1
  · have hm : (m : ℝ) = 1 := by
      have : m = 1 := by
        have : (1 : ℤ) ≤ m := hpos
        have hle : m ≤ (1 : ℤ) := by exact_mod_cast hmhi
        omega
      exact_mod_cast this
    rw [hm]
    have hd : 180 ≤ a - b := by linarith
    have hdle : a - b ≤ 360 - δ := by
      rcases abs_cases (a - b) with ⟨he, _⟩ | ⟨he, _⟩ <;> linarith
    calc δ ≤ -(a - b - 360 * 1) := by linarith
      _ ≤ |a - b - 360 * 1| := neg_le_abs _

lemma circleDist_fmod_fmod (x y : ℝ) :
    circleDist (fmod x 360) (fmod y 360) = circleDist x y := by
  unfold circleDist
  have h : fmod x 360 - fmod y 360 + 180 =
      (x - y + 180) + 360 * ((⌊y / 360⌋ - ⌊x / 360⌋ : ℤ) : ℝ) := by
    unfold fmod
    push_cast
    ring
  rw [h, fmod_add_int]

/-! ### Verified bounds for the sine evaluations -/

lemma abs_sin_sub_sin (a b : ℝ) : |Real.sin a - Real.sin b| ≤ |a - b| := by
  rw [Real.sin_sub_sin, abs_mul, abs_mul]
  have h1 : |Real.sin ((a - b) / 2)| ≤ |(a - b) / 2| := Real.abs_sin_le_abs
  have h2 : |Real.cos ((a + b) / 2)| ≤ 1 := Real.abs_cos_le_one _
  calc |(2 : ℝ)| * |Real.sin ((a - b) / 2)| * |Real.cos ((a + b) / 2)|
      ≤ |(2 : ℝ)| * |(a - b) / 2| * 1 := by
        apply mul_le_mul
        · exact mul_le_mul_of_nonneg_left h1 (abs_nonneg _)
        · exact h2
        · exact abs_nonneg _
        · positivity
    _ = |a - b| := by
        rw [abs_div]
        rw [show |(2 : ℝ)| = 2 by norm_num]
        ring

lemma radians_lt (c : ℝ) (hc : 0 < c) : radians c < c * 3.141593 / 180 := by
  unfold radians
  have hpi := Real.pi_lt_d6
  rw [div_lt_div_iff (by norm_num) (by norm_num)]
  nlinarith

lemma radians_gt (c : ℝ) (hc : 0 < c) : c * 3.141592 / 180 < radians c := by
  unfold radians
  have hpi := Real.pi_gt_d6
  rw [div_lt_div_iff (by norm_num) (by norm_num)]
  nlinarith

lemma sin_radians_diff_le (x y c : ℝ) (hxy : x - y = c) (hc : 0 < c) :
    |Real.sin (radians x) - Real.sin (radians y)| ≤ c * 3.141593 / 180 := by
  have h1 : |Real.sin (radians x) - Real.sin (radians y)| ≤ |radians x - radians y| :=
    abs_sin_sub_sin _ _
  have h2 : radians x - radians y = radians c := by
    unfold radians
    rw [← hxy]
    ring
  have h3 : 0 < radians c := by
    unfold radians
    positivity
  rw [h2, abs_of_pos h3] at h1
  exact h1.trans (radians_lt c hc).le

lemma sin_radians_between (A lo hi lb : ℝ) (hA : 0 < A)
    (hlo : lo ≤ A * 3.141592 / 180) (hhi : A * 3.141593 / 180 ≤ hi)
    (h0 : 0 < lo) (h1 : hi ≤ 1) (hlb : lb ≤ lo - hi ^ 3 / 4) :
    lb < Real.sin (radians A) ∧ Real.sin (radians A) < hi := by
  have hzlo : lo ≤ radians A := le_trans hlo (radians_gt A hA).le
  have hzhi : radians A ≤ hi := le_trans (radians_lt A hA).le hhi
  have hzpos : 0 < radians A := lt_of_lt_of_le h0 hzlo
  constructor
  · have hcube := Real.sin_gt_sub_cube hzpos (le_trans hzhi h1)
    have hz3 : radians A ^ 3 ≤ hi ^ 3 := pow_le_pow_left hzpos.le hzhi 3
    linarith
  · exact lt_of_lt_of_le (Real.sin_lt hzpos) hzhi

lemma sin_radians_sub_period (A : ℝ) (n : ℤ) :
    Real.sin (radians (A + 360 * n)) = Real.sin (radians A) := by
  have h : radians (A + 360 * n) = radians A + n * (2 * Real.pi) := by
    unfold radians
    push_cast
    ring
  rw [h, Real.sin_add_int_mul_two_pi]

lemma sin_radians_supplement (A : ℝ) :
    Real.sin (radians (180 - A)) = Real.sin (radians A) := by
  have h : radians (180 - A) = Real.pi - radians A := by
    unfold radians
    ring
  rw [h, Real.sin_pi_sub]

lemma sin_radians_reflect (A : ℝ) :
    Real.sin (radians (360 - A)) = -Real.sin (radians A) := by
  have h : radians (360 - A) = -radians A + 2 * Real.pi := by
    unfold radians
    ring
  rw [h, Real.sin_add_two_pi, Real.sin_neg]

/-! ### The unwrapped antisolar longitude along the sampling grid -/

/-- The mean anomaly g at a Julian date (degrees). -/
noncomputable def gdeg (jd : ℝ) : ℝ := 357.529 + 0.98560028 * (jd - 2451545.0)

/-- The mean longitude q at a Julian date (degrees). -/
noncomputable def qdeg (jd : ℝ) : ℝ := 280.459 + 0.98564736 * (jd - 2451545.0)

/-- The unwrapped value L + 180 whose remainder modulo 360 get_antisolarlon
returns. -/
noncomputable def uLon (jd : ℝ) : ℝ :=
  qdeg jd + 1.915 * Real.sin (radians (gdeg jd)) +
    0.020 * Real.sin (radians (2 * gdeg jd)) + 180

lemma get_antisolarlon_eq_fmod (jd : ℝ) : get_antisolarlon jd = fmod (uLon jd) 360 := rfl

/-- The unwrapped antisolar longitude at the k-th sampled instant. -/
noncomputable def uSamp (w : Hemi) (k : ℕ) : ℝ := uLon (sampleJD w k)

lemma sampleLon_eq_fmod (w : Hemi) (k : ℕ) : sampleLon w k = fmod (uSamp w k) 360 := rfl

/-- Consecutive samples advance the unwrapped antisolar longitude by between
0.039 and 0.0426 degrees (the mean-longitude rate over one sampling step,
perturbed by the Lipschitz-bounded change of the two sine terms). -/
lemma uSamp_step (w : Hemi) (k : ℕ) :
    0.039 ≤ uSamp w (k + 1) - uSamp w k ∧ uSamp w (k + 1) - uSamp w k ≤ 0.0426 := by
  have hstep := sampleJD_step w k
  have hu : uSamp w (k + 1) - uSamp w k =
      (qdeg (sampleJD w (k + 1)) - qdeg (sampleJD w k)) +
      1.915 * (Real.sin (radians (gdeg (sampleJD w (k + 1)))) -
        Real.sin (radians (gdeg (sampleJD w k)))) +
      0.020 * (Real.sin (radians (2 * gdeg (sampleJD w (k + 1)))) -
        Real.sin (radians (2 * gdeg (sampleJD w k)))) := by
    unfold uSamp uLon
    ring
  cases w with
  | south =>
    have hjd : sampleJD Hemi.south (k + 1) - sampleJD Hemi.south k = 365 / 8760 := by
      rw [sampleJD_step]
      unfold windowJD
      norm_num
    have hg : gdeg (sampleJD Hemi.south (k + 1)) - gdeg (sampleJD Hemi.south k) =
        0.98560028 * (365 / 8760) := by
      unfold gdeg
      linarith
    have hq : qdeg (sampleJD Hemi.south (k + 1)) - qdeg (sampleJD Hemi.south k) =
        0.98564736 * (365 / 8760) := by
      unfold qdeg
      linarith
    have hs1 := sin_radians_diff_le (gdeg (sampleJD Hemi.south (k + 1)))
      (gdeg (sampleJD Hemi.south k)) (0.98560028 * (365 / 8760)) hg (by norm_num)
    have hs2 := sin_radians_diff_le (2 * gdeg (sampleJD Hemi.south (k + 1)))
      (2 * gdeg (sampleJD Hemi.south k)) (2 * (0.98560028 * (365 / 8760)))
      (by linarith) (by norm_num)
    obtain ⟨ha1, hb1⟩ := abs_le.mp hs1
    obtain ⟨ha2, hb2⟩ := abs_le.mp hs2
    rw [hu, hq]
    constructor <;> linarith
  | north =>
    have hjd : sampleJD Hemi.north (k + 1) - sampleJD Hemi.north k = 366 / 8760 := by
      rw [sampleJD_step]
      unfold windowJD
      norm_num
    have hg : gdeg (sampleJD Hemi.north (k + 1)) - gdeg (sampleJD Hemi.north k) =
        0.98560028 * (366 / 8760) := by
      unfold gdeg
      linarith
    have hq : qdeg (sampleJD Hemi.north (k + 1)) - qdeg (sampleJD Hemi.north k) =
        0.98564736 * (366 / 8760) := by
      unfold qdeg
      linarith
    have hs1 := sin_radians_diff_le (gdeg (sampleJD Hemi.north (k + 1)))
      (gdeg (sampleJD Hemi.north k)) (0.98560028 * (366 / 8760)) hg (by norm_num)
    have hs2 := sin_radians_diff_le (2 * gdeg (sampleJD Hemi.north (k + 1)))
      (2 * gdeg (sampleJD Hemi.north k)) (2 * (0.98560028 * (366 / 8760)))
      (by linarith) (by norm_num)
    obtain ⟨ha1, hb1⟩ := abs_le.mp hs1
    obtain ⟨ha2, hb2⟩ := abs_le.mp hs2
    rw [hu, hq]
    constructor <;> linarith

lemma uSamp_lt_succ (w : Hemi) (k : ℕ) : uSamp w k < uSamp w (k + 1) := by
  have h := (uSamp_step w k).1
  linarith

lemma uSamp_mono (w : Hemi) {i j : ℕ} (hij : i ≤ j) : uSamp w i ≤ uSamp w j := by
  induction j with
  | zero =>
    have : i = 0 := Nat.le_zero.mp hij
    rw [this]
  | succ n ih =>
    rcases Nat.lt_or_ge i (n + 1) with hlt | hge
    · exact le_trans (ih (Nat.lt_succ_iff.mp hlt)) (uSamp_lt_succ w n).le
    · rw [Nat.le_antisymm hij hge]

/-! ### Certified bounds at the window endpoints -/

lemma uSamp_south_zero_bounds :
    7106.732 ≤ uSamp Hemi.south 0 ∧ uSamp Hemi.south 0 ≤ 7106.7458 := by
  have hjd : sampleJD Hemi.south 0 = 2458287.5 := by
    rw [sampleJD_zero]
    rfl
  have hg : gdeg (sampleJD Hemi.south 0) = 7002.9388879 := by
    rw [hjd]
    unfold gdeg
    norm_num
  have hq : qdeg (sampleJD Hemi.south 0) = 6926.1863248 := by
    rw [hjd]
    unfold qdeg
    norm_num
  have hp1 : Real.sin (radians (7002.9388879 : ℝ)) = Real.sin (radians 17.0611121) := by
    rw [show (7002.9388879 : ℝ) = 162.9388879 + 360 * ((19 : ℤ) : ℝ) by norm_num]
    rw [sin_radians_sub_period]
    rw [show (162.9388879 : ℝ) = 180 - 17.0611121 by norm_num]
    rw [sin_radians_supplement]
  have hp2 : Real.sin (radians (2 * (7002.9388879 : ℝ))) = -Real.sin (radians 34.1222242) := by
    rw [show 2 * (7002.9388879 : ℝ) = 325.8777758 + 360 * ((38 : ℤ) : ℝ) by norm_num]
    rw [sin_radians_sub_period]
    rw [show (325.8777758 : ℝ) = 360 - 34.1222242 by norm_num]
    rw [sin_radians_reflect]
  have hs1 := sin_radians_between 17.0611121 0.2977725 0.2977727 0.291171
    (by norm_num) (by norm_num) (by norm_num) (by norm_num) (by norm_num) (by norm_num)
  have hs2 := sin_radians_between 34.1222242 0.595545 0.5955453 0.542738
    (by norm_num) (by norm_num) (by norm_num) (by norm_num) (by norm_num) (by norm_num)
  have hu : uSamp Hemi.south 0 = qdeg (sampleJD Hemi.south 0) +
      1.915 * Real.sin (radians (gdeg (sampleJD Hemi.south 0))) +
      0.020 * Real.sin (radians (2 * gdeg (sampleJD Hemi.south 0))) + 180 := rfl
  rw [hu, hq, hg, hp1, hp2]
  obtain ⟨h1a, h1b⟩ := hs1
  obtain ⟨h2a, h2b⟩ := hs2
  constructor <;> linarith

lemma uSamp_south_last_bounds :
    7466.501 ≤ uSamp Hemi.south 8760 ∧ uSamp Hemi.south 8760 ≤ 7466.5155 := by
  have hjd : sampleJD Hemi.south 8760 = 2458652.5 := by
    rw [sampleJD_last]
    rfl
  have hg : gdeg (sampleJD Hemi.south 8760) = 7362.6829901 := by
    rw [hjd]
    unfold gdeg
    norm_num
  have hq : qdeg (sampleJD Hemi.south 8760) = 7285.9476112 := by
    rw [hjd]
    unfold qdeg
    norm_num
  have hp1 : Real.sin (radians (7362.6829901 : ℝ)) = Real.sin (radians 17.3170099) := by
    rw [show (7362.6829901 : ℝ) = 162.6829901 + 360 * ((20 : ℤ) : ℝ) by norm_num]
    rw [sin_radians_sub_period]
    rw [show (162.6829901 : ℝ) = 180 - 17.3170099 by norm_num]
    rw [sin_radians_supplement]
  have hp2 : Real.sin (radians (2 * (7362.6829901 : ℝ))) = -Real.sin (radians 34.6340198) := by
    rw [show 2 * (7362.6829901 : ℝ) = 325.3659802 + 360 * ((40 : ℤ) : ℝ) by norm_num]
    rw [sin_radians_sub_period]
    rw [show (325.3659802 : ℝ) = 360 - 34.6340198 by norm_num]
    rw [sin_radians_reflect]
  have hs1 := sin_radians_between 17.3170099 0.3022387 0.3022389 0.295336
    (by norm_num) (by norm_num) (by norm_num) (by norm_num) (by norm_num) (by norm_num)
  have hs2 := sin_radians_between 34.6340198 0.6044775 0.6044778 0.549259
    (by norm_num) (by norm_num) (by norm_num) (by norm_num) (by norm_num) (by norm_num)
  have hu : uSamp Hemi.south 8760 = qdeg (sampleJD Hemi.south 8760) +
      1.915 * Real.sin (radians (gdeg (sampleJD Hemi.south 8760))) +
      0.020 * Real.sin (radians (2 * gdeg (sampleJD Hemi.south 8760))) + 180 := rfl
  rw [hu, hq, hg, hp1, hp2]
  obtain ⟨h1a, h1b⟩ := hs1
  obtain ⟨h2a, h2b⟩ := hs2
  constructor <;> linarith

lemma uSamp_north_zero_eq : uSamp Hemi.north 0 = uSamp Hemi.south 8760 := by
  unfold uSamp
  have h : sampleJD Hemi.north 0 = sampleJD Hemi.south 8760 := by
    rw [sampleJD_zero, sampleJD_last]
    rfl
  rw [h]

lemma uSamp_north_last_bounds :
    7827.2257 ≤ uSamp Hemi.north 8760 ∧ uSamp Hemi.north 8760 ≤ 7827.2384 := by
  have hjd : sampleJD Hemi.north 8760 = 2459018.5 := by
    rw [sampleJD_last]
    rfl
  have hg : gdeg (sampleJD Hemi.north 8760) = 7723.41269258 := by
    rw [hjd]
    unfold gdeg
    norm_num
  have hq : qdeg (sampleJD Hemi.north 8760) = 7646.69454496 := by
    rw [hjd]
    unfold qdeg
    norm_num
  have hp1 : Real.sin (radians (7723.41269258 : ℝ)) = Real.sin (radians 16.58730742) := by
    rw [show (7723.41269258 : ℝ) = 163.41269258 + 360 * ((21 : ℤ) : ℝ) by norm_num]
    rw [sin_radians_sub_period]
    rw [show (163.41269258 : ℝ) = 180 - 16.58730742 by norm_num]
    rw [sin_radians_supplement]
  have hp2 : Real.sin (radians (2 * (7723.41269258 : ℝ))) =
      -Real.sin (radians 33.17461484) := by
    rw [show 2 * (7723.41269258 : ℝ) = 326.82538516 + 360 * ((42 : ℤ) : ℝ) by norm_num]
    rw [sin_radians_sub_period]
    rw [show (326.82538516 : ℝ) = 360 - 33.17461484 by norm_num]
    rw [sin_radians_reflect]
  have hs1 := sin_radians_between 16.58730742 0.2895030 0.2895032 0.283437
    (by norm_num) (by norm_num) (by norm_num) (by norm_num) (by norm_num) (by norm_num)
  have hs2 := sin_radians_between 33.17461484 0.5790061 0.5790064 0.530478
    (by norm_num) (by norm_num) (by norm_num) (by norm_num) (by norm_num) (by norm_num)
  have hu : uSamp Hemi.north 8760 = qdeg (sampleJD Hemi.north 8760) +
      1.915 * Real.sin (radians (gdeg (sampleJD Hemi.north 8760))) +
      0.020 * Real.sin (radians (2 * gdeg (sampleJD Hemi.north 8760))) + 180 := rfl
  rw [hu, hq, hg, hp1, hp2]
  obtain ⟨h1a, h1b⟩ := hs1
  obtain ⟨h2a, h2b⟩ := hs2
  constructor <;> linarith

/-! ### The nearest-neighbour selection is a minimiser -/

lemma nearestAux_zero (x : ℕ → ℝ) (q : ℝ) : nearestAux x q 0 = 0 := rfl

lemma nearestAux_succ (x : ℕ → ℝ) (q : ℝ) (k : ℕ) :
    nearestAux x q (k + 1) =
      if |x (k + 1) - q| < |x (nearestAux x q k) - q| then k + 1
      else nearestAux x q k := rfl

lemma nearestAux_le (x : ℕ → ℝ) (q : ℝ) : ∀ n, nearestAux x q n ≤ n := by
  intro n
  induction n with
  | zero => exact le_refl 0
  | succ k ih =>
    rw [nearestAux_succ]
    split_ifs
    · exact le_refl _
    · exact ih.trans (Nat.le_succ k)

lemma nearestAux_min (x : ℕ → ℝ) (q : ℝ) :
    ∀ n, ∀ j, j ≤ n → |x (nearestAux x q n) - q| ≤ |x j - q| := by
  intro n
  induction n with
  | zero =>
    intro j hj
    rw [Nat.le_zero.mp hj, nearestAux_zero]
  | succ k ih =>
    intro j hj
    rw [nearestAux_succ]
    split_ifs with h
    · rcases Nat.lt_or_ge j (k + 1) with hlt | hge
      · exact le_trans h.le (ih j (Nat.lt_succ_iff.mp hlt))
      · rw [Nat.le_antisymm hj hge]
    · rcases Nat.lt_or_ge j (k + 1) with hlt | hge
      · exact ih j (Nat.lt_succ_iff.mp hlt)
      · rw [Nat.le_antisymm hj hge]
        exact not_lt.mp h

/-! ### Crossing indices of a monotone sequence -/

lemma exists_crossing (f : ℕ → ℝ) (c : ℝ) :
    ∀ n, f 0 < c → c ≤ f n → ∃ k, k < n ∧ f k < c ∧ c ≤ f (k + 1) := by
  intro n
  induction n with
  | zero =>
    intro h0 hn
    exact absurd hn (not_le.mpr h0)
  | succ m ih =>
    intro h0 hn
    by_cases hm : c ≤ f m
    · obtain ⟨k, hk1, hk2, hk3⟩ := ih h0 hm
      exact ⟨k, Nat.lt_succ_of_lt hk1, hk2, hk3⟩
    · exact ⟨m, Nat.lt_succ_self m, not_le.mp hm, hn⟩

lemma exists_crossing_down (f : ℕ → ℝ) (c : ℝ) :
    ∀ n, f 0 ≤ c → c < f n → ∃ k, k < n ∧ f k ≤ c ∧ c < f (k + 1) := by
  intro n
  induction n with
  | zero =>
    intro h0 hn
    exact absurd hn (not_lt.mpr h0)
  | succ m ih =>
    intro h0 hn
    by_cases hm : f m ≤ c
    · exact ⟨m, Nat.lt_succ_self m, hm, hn⟩
    · obtain ⟨k, hk1, hk2, hk3⟩ := ih h0 (not_le.mp hm)
      exact ⟨k, Nat.lt_succ_of_lt hk1, hk2, hk3⟩

/-! ### The sampling tolerance: one sampling interval of longitude change -/

/-- The largest circle-distance between consecutive sampled antisolar
longitudes: one sampling interval's worth of longitude change. -/
noncomputable def sampleTol (w : Hemi) : ℝ :=
  (Finset.range 8760).sup' (Finset.nonempty_range_iff.mpr (by norm_num))
    (fun j => circleDist (sampleLon w (j + 1)) (sampleLon w j))

lemma circleStep_eq (w : Hemi) (j : ℕ) :
    circleDist (sampleLon w (j + 1)) (sampleLon w j) = uSamp w (j + 1) - uSamp w j := by
  obtain ⟨hs1, hs2⟩ := uSamp_step w j
  rw [sampleLon_eq_fmod, sampleLon_eq_fmod, circleDist_fmod_fmod]
  rw [circleDist_eq_abs _ _ (abs_le.mpr ⟨by linarith, by linarith⟩)]
  exact abs_of_pos (by linarith)

lemma sampleTol_le (w : Hemi) : sampleTol w ≤ 0.0426 := by
  apply Finset.sup'_le
  intro j _
  rw [circleStep_eq]
  linarith [(uSamp_step w j).2]

lemma le_sampleTol (w : Hemi) (j : ℕ) (hj : j < 8760) :
    circleDist (sampleLon w (j + 1)) (sampleLon w j) ≤ sampleTol w := by
  unfold sampleTol
  exact Finset.le_sup' (fun i => circleDist (sampleLon w (i + 1)) (sampleLon w i))
    (Finset.mem_range.mpr hj)

/-! ### Locating the southern samples on the circle -/

lemma sampleLon_south_eq (k : ℕ) (hk : k ≤ 8760) :
    (uSamp Hemi.south k < 7200 → sampleLon Hemi.south k = uSamp Hemi.south k - 6840) ∧
    (7200 ≤ uSamp Hemi.south k → sampleLon Hemi.south k = uSamp Hemi.south k - 7200) := by
  have hlo := uSamp_mono Hemi.south (Nat.zero_le k)
  have hhi := uSamp_mono Hemi.south hk
  have h0 := uSamp_south_zero_bounds
  have h8 := uSamp_south_last_bounds
  constructor
  · intro h
    rw [sampleLon_eq_fmod, fmod_eq_sub _ 19 (by push_cast; linarith) (by push_cast; linarith)]
    push_cast
    ring
  · intro h
    rw [sampleLon_eq_fmod, fmod_eq_sub _ 20 (by push_cast; linarith) (by push_cast; linarith)]
    push_cast
    ring

/-- Every southern sample's longitude is at least 0.1 degrees away on the
circle from 266.62: the 365-day window leaves the arc between about 266.52
and about 266.73 degrees unsampled. -/
lemma south_far_266 (k : ℕ) (hk : k ≤ 8760) :
    0.1 ≤ circleDist (sampleLon Hemi.south k) 266.62 := by
  have hlo := uSamp_mono Hemi.south (Nat.zero_le k)
  have hhi := uSamp_mono Hemi.south hk
  have h0 := uSamp_south_zero_bounds
  have h8 := uSamp_south_last_bounds
  have hpair := sampleLon_south_eq k hk
  rcases lt_or_ge (uSamp Hemi.south k) 7200 with hc | hc
  · rw [hpair.1 hc]
    apply circleDist_ge _ _ _ (by norm_num)
    · rw [abs_of_nonneg (by linarith)]
      linarith
    · rw [abs_of_nonneg (by linarith)]
      linarith
  · rw [hpair.2 hc]
    apply circleDist_ge _ _ _ (by norm_num)
    · rw [abs_of_nonpos (by linarith)]
      linarith
    · rw [abs_of_nonpos (by linarith)]
      linarith

lemma south_inb_266 :
    (∃ j, j ≤ 8760 ∧ sampleLon Hemi.south j ≤ 266.62) ∧
      (∃ j, j ≤ 8760 ∧ (266.62 : ℝ) ≤ sampleLon Hemi.south j) := by
  have h0 := uSamp_south_zero_bounds
  have h8 := uSamp_south_last_bounds
  constructor
  · refine ⟨8760, le_refl _, ?_⟩
    rw [(sampleLon_south_eq 8760 (le_refl _)).2 (by linarith)]
    linarith
  · refine ⟨0, Nat.zero_le _, ?_⟩
    rw [(sampleLon_south_eq 0 (by norm_num)).1 (by linarith)]
    linarith

/-- C3 counterexample: the target at ecliptic longitude 266.62, latitude -40
has hemisphere south and get_antisolardate returns a sampled date, yet the
antisolar longitude at that date differs from 266.62 by more than the
sampling tolerance: every southern sample misses the arc near 266.62 by at
least 0.1 degrees while one sampling interval changes the longitude by at
most 0.0426 degrees. -/
theorem C3_counterexample :
    get_hemisphere (-40) = some Hemi.south ∧
    (0 : ℝ) ≤ 266.62 ∧ (266.62 : ℝ) < 360 ∧
    get_antisolardate 266.62 (-40) =
      some (Except.ok (sampleJD Hemi.south (nearestAux (sampleLon Hemi.south) 266.62 8760))) ∧
    sampleTol Hemi.south <
      circleDist (get_antisolarlon
        (sampleJD Hemi.south (nearestAux (sampleLon Hemi.south) 266.62 8760))) 266.62 := by
  have hw : get_hemisphere (-40 : ℝ) = some Hemi.south := get_hemisphere_south (by norm_num)
  refine ⟨hw, by norm_num, by norm_num, ?_, ?_⟩
  · rw [get_antisolardate_of_some hw, if_pos south_inb_266]
  · have hb := nearestAux_le (sampleLon Hemi.south) 266.62 8760
    have hfar := south_far_266 _ hb
    have htol := sampleTol_le Hemi.south
    show sampleTol Hemi.south <
      circleDist (sampleLon Hemi.south (nearestAux (sampleLon Hemi.south) 266.62 8760)) 266.62
    linarith

/-! ### Existence of a sample within one sampling step of a covered query -/

lemma close_sample_up (w : Hemi) (q : ℝ) (m : ℤ)
    (hq0 : 0 ≤ q) (hq1 : q + 1 ≤ 360)
    (h0 : uSamp w 0 < 360 * m + q) (h8 : 360 * m + q ≤ uSamp w 8760) :
    ∃ k j, k ≤ 8760 ∧ j < 8760 ∧
      |sampleLon w k - q| ≤ circleDist (sampleLon w (j + 1)) (sampleLon w j) := by
  obtain ⟨j, hj, hjlt, hjge⟩ := exists_crossing (uSamp w) (360 * m + q) 8760 h0 h8
  refine ⟨j + 1, j, Nat.succ_le_of_lt hj, hj, ?_⟩
  obtain ⟨hs1, hs2⟩ := uSamp_step w j
  have hb1 : 360 * (m : ℝ) ≤ uSamp w (j + 1) := by linarith
  have hb2 : uSamp w (j + 1) < 360 * (m : ℝ) + 360 := by linarith
  have hx : sampleLon w (j + 1) = uSamp w (j + 1) - 360 * (m : ℝ) := by
    rw [sampleLon_eq_fmod, fmod_eq_sub _ m hb1 hb2]
  rw [circleStep_eq, hx]
  rw [abs_of_nonneg (by linarith)]
  linarith

lemma close_sample_down (w : Hemi) (q : ℝ) (m : ℤ)
    (hq2 : 0.0426 ≤ q) (hq1 : q < 360)
    (h0 : uSamp w 0 ≤ 360 * m + q) (h8 : 360 * m + q < uSamp w 8760) :
    ∃ k j, k ≤ 8760 ∧ j < 8760 ∧
      |sampleLon w k - q| ≤ circleDist (sampleLon w (j + 1)) (sampleLon w j) := by
  obtain ⟨j, hj, hjle, hjgt⟩ := exists_crossing_down (uSamp w) (360 * m + q) 8760 h0 h8
  refine ⟨j, j, hj.le, hj, ?_⟩
  obtain ⟨hs1, hs2⟩ := uSamp_step w j
  have hb1 : 360 * (m : ℝ) ≤ uSamp w j := by linarith
  have hb2 : uSamp w j < 360 * (m : ℝ) + 360 := by linarith
  have hx : sampleLon w j = uSamp w j - 360 * (m : ℝ) := by
    rw [sampleLon_eq_fmod, fmod_eq_sub _ m hb1 hb2]
  rw [circleStep_eq, hx]
  rw [abs_of_nonpos (by linarith)]
  linarith

/-- C3 amended: for a target with a defined hemisphere whose
get_antisolardate completes with a date, the antisolar longitude at that
date is within one sampling interval's worth of longitude change of the
target's longitude, provided (for the south window only) the longitude does
not fall strictly inside the arc the 365-day window leaves unsampled,
between the final sampled longitude (about 266.51) and the initial sampled
longitude (about 266.74). -/
theorem C3_roundtrip_amended (w : Hemi) (lon lat d : ℝ)
    (hw : get_hemisphere lat = some w)
    (hd : get_antisolardate lon lat = some (Except.ok d))
    (h0 : 0 ≤ lon) (h1 : lon < 360)
    (hgap : w = Hemi.south →
      lon ≤ sampleLon Hemi.south 8760 ∨ sampleLon Hemi.south 0 ≤ lon) :
    circleDist (get_antisolarlon d) lon ≤ sampleTol w := by
  have hdd : d = sampleJD w (nearestAux (sampleLon w) lon 8760) := by
    rw [get_antisolardate_of_some hw] at hd
    split_ifs at hd with hif
    · exact (Option.some.inj hd |> Except.ok.inj).symm
    · exact absurd (Option.some.inj hd) (by simp)
  subst hdd
  have hclose : ∃ k j, k ≤ 8760 ∧ j < 8760 ∧
      |sampleLon w k - lon| ≤ circleDist (sampleLon w (j + 1)) (sampleLon w j) := by
    cases w with
    | south =>
      have hs0 := uSamp_south_zero_bounds
      have hs8 := uSamp_south_last_bounds
      rcases hgap rfl with hleft | hright
      · rw [(sampleLon_south_eq 8760 (le_refl _)).2 (by linarith)] at hleft
        exact close_sample_up Hemi.south lon 20 h0 (by linarith)
          (by push_cast; linarith) (by push_cast; linarith)
      · rw [(sampleLon_south_eq 0 (by norm_num)).1 (by linarith)] at hright
        exact close_sample_down Hemi.south lon 19 (by linarith) h1
          (by push_cast; linarith) (by push_cast; linarith)
    | north =>
      have hn0 := uSamp_north_zero_eq
      have hs8 := uSamp_south_last_bounds
      have hn8 := uSamp_north_last_bounds
      rcases le_or_lt lon (uSamp Hemi.north 8760 - 7560) with hleft | hright
      · exact close_sample_up Hemi.north lon 21 h0 (by linarith)
          (by push_cast; linarith) (by push_cast; linarith)
      · exact close_sample_down Hemi.north lon 20 (by linarith) h1
          (by push_cast; linarith) (by push_cast; linarith)
  obtain ⟨k, j, hk, hj, hclose⟩ := hclose
  have hmin := nearestAux_min (sampleLon w) lon 8760 k hk
  have htolj := le_sampleTol w j hj
  have hcd := circleDist_le_abs (sampleLon w (nearestAux (sampleLon w) lon 8760)) lon
  show circleDist (sampleLon w (nearestAux (sampleLon w) lon 8760)) lon ≤ sampleTol w
  linarith

lemma south_inb_100 :
    (∃ j, j ≤ 8760 ∧ sampleLon Hemi.south j ≤ 100) ∧
      (∃ j, j ≤ 8760 ∧ (100 : ℝ) ≤ sampleLon Hemi.south j) := by
  have h0 := uSamp_south_zero_bounds
  have h8 := uSamp_south_last_bounds
  constructor
  · obtain ⟨j, hj, hlt, hge⟩ := exists_crossing (uSamp Hemi.south) 7200 8760
      (by linarith) (by linarith)
    refine ⟨j + 1, Nat.succ_le_of_lt hj, ?_⟩
    obtain ⟨hs1, hs2⟩ := uSamp_step Hemi.south j
    have hx : sampleLon Hemi.south (j + 1) = uSamp Hemi.south (j + 1) - 7200 := by
      rw [sampleLon_eq_fmod, fmod_eq_sub _ 20 (by push_cast; linarith) (by push_cast; linarith)]
      push_cast
      ring
    rw [hx]
    linarith
  · refine ⟨0, Nat.zero_le _, ?_⟩
    rw [(sampleLon_south_eq 0 (by norm_num)).1 (by linarith)]
    linarith

lemma get_antisolardate_south_100 :
    get_antisolardate 100 (-40) =
      some (Except.ok (sampleJD Hemi.south (nearestAux (sampleLon Hemi.south) 100 8760))) := by
  rw [get_antisolardate_of_some (get_hemisphere_south (by norm_num)), if_pos south_inb_100]

theorem C3_witness :
    get_hemisphere (-40 : ℝ) = some Hemi.south ∧
    get_antisolardate 100 (-40) =
      some (Except.ok (sampleJD Hemi.south (nearestAux (sampleLon Hemi.south) 100 8760))) ∧
    circleDist (get_antisolarlon
        (sampleJD Hemi.south (nearestAux (sampleLon Hemi.south) 100 8760))) 100 ≤
      sampleTol Hemi.south := by
  have hw : get_hemisphere (-40 : ℝ) = some Hemi.south := get_hemisphere_south (by norm_num)
  refine ⟨hw, get_antisolardate_south_100, ?_⟩
  apply C3_roundtrip_amended Hemi.south 100 (-40)
    (sampleJD Hemi.south (nearestAux (sampleLon Hemi.south) 100 8760))
    hw get_antisolardate_south_100 (by norm_num) (by norm_num)
  intro _
  left
  rw [(sampleLon_south_eq 8760 (le_refl _)).2 (by linarith [uSamp_south_last_bounds.1])]
  linarith [uSamp_south_last_bounds.1]

end Tobs
